import Mathlib

/-!
Shallow embedding of the `SecurityMonitor` class from
`src/utils/security_utils.py` of the TravelPacker repository.

Python dictionaries are modelled as association lists (key order preserved,
new keys appended at the end, exactly like insertion-ordered Python dicts),
`defaultdict` accesses that create entries are modelled explicitly, sets are
modelled as duplicate-free lists, and `time.time()` is passed in as an
explicit `now : Nat` argument.  Nat subtraction truncates at zero, which
agrees with the Python comparison `t < now - window` for non-negative
timestamps (both sides report "not expired" when `now < window`).
-/

namespace TravelPacker

/-- Lookup in an association list, mirroring Python `dict.__getitem__`
absence checks (`k in d`). -/
def alistGet {α : Type} (m : List (String × α)) (k : String) : Option α :=
  match m with
  | [] => none
  | (k', v) :: rest => if k' = k then some v else alistGet rest k

/-- Update or insert a key in an association list.  Existing keys keep their
position (as in an insertion-ordered Python dict); new keys go to the end. -/
def alistSet {α : Type} (m : List (String × α)) (k : String) (v : α) :
    List (String × α) :=
  match m with
  | [] => [(k, v)]
  | (k', v') :: rest =>
    if k' = k then (k, v) :: rest else (k', v') :: alistSet rest k v

/-- Membership test for a key, mirroring Python `k in d`. -/
def containsKey {α : Type} (m : List (String × α)) (k : String) : Bool :=
  (alistGet m k).isSome

/-- The state of `SecurityMonitor.__init__`: the three data structures and
the four configuration constants.  The `threading.Lock` has no sequential
content and is not part of the state. -/
structure SecurityMonitor where
  failed_attempts : List (String × List Nat)
  suspicious_ips : List String
  request_patterns : List (String × List (String × Nat))
  max_failed_attempts : Nat
  failed_attempt_window : Nat
  anomaly_threshold : Nat
  anomaly_window : Nat
deriving Repr, DecidableEq

/-- A freshly constructed monitor: empty tables and the default
configuration (5 attempts, 300 s window, threshold 50, 60 s window). -/
def initMonitor : SecurityMonitor :=
  { failed_attempts := []
    suspicious_ips := []
    request_patterns := []
    max_failed_attempts := 5
    failed_attempt_window := 300
    anomaly_threshold := 50
    anomaly_window := 60 }

/-- The pruning loop `while attempts and attempts[0] < now - window:
attempts.popleft()`: drop expired timestamps from the head, stopping at the
first non-expired one. -/
def pruneOld (window now : Nat) : List Nat → List Nat
  | [] => []
  | t :: ts => if t < now - window then pruneOld window now ts else t :: ts

/-- The failure log of an IP.  `self._failed_attempts` is a
`defaultdict(deque)`, so a missing key reads as the empty log. -/
def getAttempts (s : SecurityMonitor) (ip : String) : List Nat :=
  (alistGet s.failed_attempts ip).getD []

/-- Insertion into the suspicious set (`set.add`): no duplicates. -/
def insertSet (l : List String) (x : String) : List String :=
  if x ∈ l then l else l ++ [x]

/-- `SecurityMonitor.record_failed_login`: prune the IP's log, append `now`,
and flag the IP as suspicious (returning `True`) iff the new log length
reaches `max_failed_attempts`.  The `defaultdict` access creates the IP's
entry even when it was absent, which `alistSet` reproduces. -/
def record_failed_login (s : SecurityMonitor) (ip : String) (now : Nat) :
    Bool × SecurityMonitor :=
  let attempts := pruneOld s.failed_attempt_window now (getAttempts s ip) ++ [now]
  let fa := alistSet s.failed_attempts ip attempts
  if s.max_failed_attempts ≤ attempts.length then
    (true, { s with failed_attempts := fa,
                    suspicious_ips := insertSet s.suspicious_ips ip })
  else
    (false, { s with failed_attempts := fa })

/-- `SecurityMonitor.record_successful_login`: clear the IP's log in place if
the key exists (the key itself stays in the dict), and remove the IP from
the suspicious set if present. -/
def record_successful_login (s : SecurityMonitor) (ip : String) :
    SecurityMonitor :=
  let fa := if containsKey s.failed_attempts ip
            then alistSet s.failed_attempts ip []
            else s.failed_attempts
  { s with failed_attempts := fa,
           suspicious_ips := s.suspicious_ips.filter (fun y => y ≠ ip) }

/-- `SecurityMonitor.is_ip_suspicious`: pure membership test. -/
def is_ip_suspicious (s : SecurityMonitor) (ip : String) : Bool :=
  s.suspicious_ips.contains ip

/-- The inner endpoint-count dict of an IP; `self._request_patterns` is a
`defaultdict(lambda: defaultdict(int))`, so a missing IP reads as empty. -/
def getPattern (s : SecurityMonitor) (ip : String) : List (String × Nat) :=
  (alistGet s.request_patterns ip).getD []

/-- The request counter of an (ip, endpoint) pair; missing entries read 0. -/
def getCount (s : SecurityMonitor) (ip endpoint : String) : Nat :=
  (alistGet (getPattern s ip) endpoint).getD 0

/-- `SecurityMonitor.record_request`: increment the (ip, endpoint) counter,
creating entries as needed. -/
def record_request (s : SecurityMonitor) (ip endpoint : String) :
    SecurityMonitor :=
  let inner := alistSet (getPattern s ip) endpoint (getCount s ip endpoint + 1)
  { s with request_patterns := alistSet s.request_patterns ip inner }

/-- `SecurityMonitor.check_anomaly`: read the counter and report whether it
strictly exceeds `anomaly_threshold`.  The double `defaultdict` access
`self._request_patterns[ip][endpoint]` creates both the outer and the inner
entry (with count 0) when absent, which the `alistSet` writes reproduce. -/
def check_anomaly (s : SecurityMonitor) (ip endpoint : String) :
    Bool × SecurityMonitor :=
  let count := getCount s ip endpoint
  let inner := alistSet (getPattern s ip) endpoint count
  let s' := { s with request_patterns := alistSet s.request_patterns ip inner }
  (decide (s.anomaly_threshold < count), s')

/-- The failed-attempt half of `cleanup_old_data`: prune every IP's log and
delete entries that became empty. -/
def cleanupAttempts (window now : Nat) :
    List (String × List Nat) → List (String × List Nat)
  | [] => []
  | (ip, l) :: rest =>
    let l' := pruneOld window now l
    if l'.isEmpty then cleanupAttempts window now rest
    else (ip, l') :: cleanupAttempts window now rest

/-- `SecurityMonitor.cleanup_old_data`: prune/delete failed-attempt logs and
unconditionally clear the whole request-pattern table.  It does not touch
`suspicious_ips`. -/
def cleanup_old_data (s : SecurityMonitor) (now : Nat) : SecurityMonitor :=
  { s with failed_attempts := cleanupAttempts s.failed_attempt_window now s.failed_attempts,
           request_patterns := [] }

/-- The dictionary returned by `SecurityMonitor.get_stats`. -/
structure Stats where
  suspicious_ips : Nat
  monitored_ips : Nat
  total_patterns : Nat
deriving Repr, DecidableEq

/-- `SecurityMonitor.get_stats`: sizes of the three structures
(`total_patterns` sums the number of endpoint keys per IP). -/
def get_stats (s : SecurityMonitor) : Stats :=
  { suspicious_ips := s.suspicious_ips.length
    monitored_ips := s.failed_attempts.length
    total_patterns := (s.request_patterns.map (fun p => p.2.length)).sum }

/-- A sequence of `record_failed_login` calls for one IP at the given
timestamps, collecting the returned Booleans. -/
def recordFailures (s : SecurityMonitor) (ip : String) :
    List Nat → List Bool × SecurityMonitor
  | [] => ([], s)
  | t :: ts =>
    let r := record_failed_login s ip t
    let rest := recordFailures r.2 ip ts
    (r.1 :: rest.1, rest.2)

/-- `n` consecutive `record_request` calls for one (ip, endpoint) pair. -/
def recordRequests (s : SecurityMonitor) (ip endpoint : String) : Nat → SecurityMonitor
  | 0 => s
  | n + 1 => record_request (recordRequests s ip endpoint n) ip endpoint

/-- The Booleans a run of `n` no-pruning `record_failed_login` calls should
return when the log already holds `preLen` entries and the threshold is
`maxA`: the k-th call reports whether the log length reached `maxA`. -/
def tripResults (maxA preLen : Nat) : Nat → List Bool
  | 0 => []
  | n + 1 => decide (maxA ≤ preLen + 1) :: tripResults maxA (preLen + 1) n

/-- One login-related event for a fixed IP: a failed attempt at some time,
or a successful login. -/
inductive LoginOp where
  | failed (now : Nat)
  | succeeded
deriving Repr, DecidableEq

/-- Apply one login event for `ip`. -/
def applyLoginOp (s : SecurityMonitor) (ip : String) : LoginOp → SecurityMonitor
  | .failed now => (record_failed_login s ip now).2
  | .succeeded => record_successful_login s ip

/-- Apply a whole sequence of login events for `ip`. -/
def applyLoginOps (s : SecurityMonitor) (ip : String) :
    List LoginOp → SecurityMonitor
  | [] => s
  | op :: ops => applyLoginOps (applyLoginOp s ip op) ip ops

end TravelPacker

namespace TravelPacker

theorem alistGet_set_self {α : Type} (m : List (String × α)) (k : String) (v : α) :
    alistGet (alistSet m k v) k = some v := by
  induction m with
  | nil => simp [alistSet, alistGet]
  | cons h t ih =>
    obtain ⟨k', v'⟩ := h
    by_cases hk : k' = k
    · simp [alistSet, hk, alistGet]
    · simp [alistSet, hk, alistGet, ih]

theorem alistGet_set_ne {α : Type} (m : List (String × α)) (k k' : String) (v : α)
    (h : k' ≠ k) : alistGet (alistSet m k v) k' = alistGet m k' := by
  induction m with
  | nil => simp [alistSet, alistGet, Ne.symm h]
  | cons hd t ih =>
    obtain ⟨k₀, v₀⟩ := hd
    by_cases hk : k₀ = k
    · subst hk
      simp [alistSet, alistGet, h, Ne.symm h]
    · simp [alistSet, hk, alistGet, ih]

theorem alistSet_eq_self {α : Type} (m : List (String × α)) (k : String) (v : α)
    (h : alistGet m k = some v) : alistSet m k v = m := by
  induction m with
  | nil => simp [alistGet] at h
  | cons hd t ih =>
    obtain ⟨k₀, v₀⟩ := hd
    by_cases hk : k₀ = k
    · subst hk
      simp [alistGet] at h
      simp [alistSet, h]
    · simp [alistGet, hk] at h
      simp [alistSet, hk, ih h]

theorem mem_alistSet_self {α : Type} (m : List (String × α)) (k : String) (v : α) :
    (k, v) ∈ alistSet m k v := by
  induction m with
  | nil => simp [alistSet]
  | cons hd t ih =>
    obtain ⟨k₀, v₀⟩ := hd
    by_cases hk : k₀ = k
    · simp [alistSet, hk]
    · simp [alistSet, hk]
      exact Or.inr ih

theorem alistSet_length_of_containsKey {α : Type} (m : List (String × α)) (k : String)
    (v : α) (h : containsKey m k = true) : (alistSet m k v).length = m.length := by
  induction m with
  | nil => simp [containsKey, alistGet] at h
  | cons hd t ih =>
    obtain ⟨k₀, v₀⟩ := hd
    by_cases hk : k₀ = k
    · simp [alistSet, hk]
    · simp [containsKey, alistGet, hk] at h
      simp [alistSet, hk, ih h]

theorem pruneOld_eq_self (window now : Nat) (l : List Nat)
    (h : ∀ t ∈ l, ¬ t < now - window) : pruneOld window now l = l := by
  cases l with
  | nil => rfl
  | cons t ts =>
    have ht : ¬ t < now - window := h t (by simp)
    simp [pruneOld, ht]

theorem mem_insertSet (l : List String) (x y : String) :
    y ∈ insertSet l x ↔ y ∈ l ∨ y = x := by
  unfold insertSet
  split
  · constructor
    · exact Or.inl
    · rintro (hy | rfl)
      · exact hy
      · assumption
  · simp

end TravelPacker

namespace TravelPacker

theorem record_failed_login_eq (s : SecurityMonitor) (ip : String) (now : Nat) :
    record_failed_login s ip now =
      (decide (s.max_failed_attempts ≤
          (pruneOld s.failed_attempt_window now (getAttempts s ip)).length + 1),
       { s with
          failed_attempts := alistSet s.failed_attempts ip
            (pruneOld s.failed_attempt_window now (getAttempts s ip) ++ [now]),
          suspicious_ips :=
            if s.max_failed_attempts ≤
                (pruneOld s.failed_attempt_window now (getAttempts s ip)).length + 1
            then insertSet s.suspicious_ips ip
            else s.suspicious_ips }) := by
  simp only [record_failed_login]
  split
  · rename_i hcond
    have hc : s.max_failed_attempts ≤
        (pruneOld s.failed_attempt_window now (getAttempts s ip)).length + 1 := by
      simpa using hcond
    simp [hc]
  · rename_i hcond
    have hc : ¬ s.max_failed_attempts ≤
        (pruneOld s.failed_attempt_window now (getAttempts s ip)).length + 1 := by
      simpa using hcond
    simp [hc]

theorem getAttempts_record_failed_self (s : SecurityMonitor) (ip : String) (now : Nat) :
    getAttempts (record_failed_login s ip now).2 ip =
      pruneOld s.failed_attempt_window now (getAttempts s ip) ++ [now] := by
  rw [record_failed_login_eq]
  simp [getAttempts, alistGet_set_self]

theorem record_failed_login_config (s : SecurityMonitor) (ip : String) (now : Nat) :
    (record_failed_login s ip now).2.max_failed_attempts = s.max_failed_attempts ∧
    (record_failed_login s ip now).2.failed_attempt_window = s.failed_attempt_window ∧
    (record_failed_login s ip now).2.anomaly_threshold = s.anomaly_threshold ∧
    (record_failed_login s ip now).2.request_patterns = s.request_patterns := by
  rw [record_failed_login_eq]
  exact ⟨rfl, rfl, rfl, rfl⟩

theorem is_ip_suspicious_record_failed (s : SecurityMonitor) (ip : String) (now : Nat) :
    (is_ip_suspicious (record_failed_login s ip now).2 ip = true ↔
      is_ip_suspicious s ip = true ∨
        s.max_failed_attempts ≤
          (pruneOld s.failed_attempt_window now (getAttempts s ip)).length + 1) := by
  rw [record_failed_login_eq]
  unfold is_ip_suspicious
  by_cases hcond : s.max_failed_attempts ≤
      (pruneOld s.failed_attempt_window now (getAttempts s ip)).length + 1
  · simp [hcond, mem_insertSet]
  · simp [hcond]

end TravelPacker

namespace TravelPacker

theorem recordFailures_spec (ip : String) (ts : List Nat) :
    ∀ (s : SecurityMonitor) (pre : List Nat),
      getAttempts s ip = pre →
      (∀ t ∈ pre ++ ts, ∀ u ∈ ts, u ≤ s.failed_attempt_window + t) →
      (recordFailures s ip ts).1 =
          tripResults s.max_failed_attempts pre.length ts.length ∧
        getAttempts (recordFailures s ip ts).2 ip = pre ++ ts ∧
        (recordFailures s ip ts).2.max_failed_attempts = s.max_failed_attempts ∧
        (recordFailures s ip ts).2.failed_attempt_window = s.failed_attempt_window ∧
        (is_ip_suspicious (recordFailures s ip ts).2 ip = true ↔
          (is_ip_suspicious s ip = true ∨
            (ts ≠ [] ∧ s.max_failed_attempts ≤ pre.length + ts.length))) := by
  induction ts with
  | nil =>
    intro s pre hpre _
    simp only [recordFailures]
    exact ⟨by simp [tripResults], by simpa using hpre, trivial, trivial, by simp⟩
  | cons t ts ih =>
    intro s pre hpre hok
    have hnoexp : ∀ x ∈ pre, ¬ x < t - s.failed_attempt_window := by
      intro x hx
      have := hok x (by simp [hx]) t (by simp)
      omega
    have hprune : pruneOld s.failed_attempt_window t (getAttempts s ip) = pre := by
      rw [hpre]
      exact pruneOld_eq_self _ _ _ hnoexp
    have hfst : (record_failed_login s ip t).1 =
        decide (s.max_failed_attempts ≤ pre.length + 1) := by
      rw [record_failed_login_eq]
      simp [hprune]
    have hlog : getAttempts (record_failed_login s ip t).2 ip = pre ++ [t] := by
      rw [getAttempts_record_failed_self, hprune]
    have hcfg := record_failed_login_config s ip t
    have hsusp := is_ip_suspicious_record_failed s ip t
    rw [hprune] at hsusp
    have hok' : ∀ x ∈ (pre ++ [t]) ++ ts, ∀ u ∈ ts,
        u ≤ (record_failed_login s ip t).2.failed_attempt_window + x := by
      intro x hx u hu
      rw [hcfg.2.1]
      have hx' : x ∈ pre ++ t :: ts := by
        rw [List.append_cons]
        exact hx
      exact hok x hx' u (by simp [hu])
    obtain ⟨ih1, ih2, ih3, ih4, ih5⟩ :=
      ih (record_failed_login s ip t).2 (pre ++ [t]) hlog hok'
    have hlen : (pre ++ [t]).length = pre.length + 1 := by simp
    refine ⟨?_, ?_, ?_, ?_, ?_⟩
    · show (record_failed_login s ip t).1 ::
          (recordFailures (record_failed_login s ip t).2 ip ts).1 = _
      rw [ih1, hfst, hcfg.1, hlen]
      simp [tripResults]
    · show getAttempts (recordFailures (record_failed_login s ip t).2 ip ts).2 ip = _
      rw [ih2]
      simp
    · show (recordFailures (record_failed_login s ip t).2 ip ts).2.max_failed_attempts = _
      rw [ih3, hcfg.1]
    · show (recordFailures (record_failed_login s ip t).2 ip ts).2.failed_attempt_window = _
      rw [ih4, hcfg.2.1]
    · show is_ip_suspicious (recordFailures (record_failed_login s ip t).2 ip ts).2 ip = true ↔ _
      rw [ih5, hsusp, hcfg.1, hlen]
      simp only [List.length_cons]
      constructor
      · rintro ((h | h) | ⟨-, h⟩)
        · exact Or.inl h
        · exact Or.inr ⟨by simp, by omega⟩
        · exact Or.inr ⟨by simp, by omega⟩
      · rintro (h | ⟨-, h⟩)
        · exact Or.inl (Or.inl h)
        · by_cases hts : ts = []
          · subst hts
            refine Or.inl (Or.inr ?_)
            simp only [List.length_nil] at h
            omega
          · exact Or.inr ⟨hts, by omega⟩

end TravelPacker

namespace TravelPacker

theorem pruneOld_eq_nil (window now : Nat) (l : List Nat)
    (h : ∀ t ∈ l, t < now - window) : pruneOld window now l = [] := by
  induction l with
  | nil => rfl
  | cons t ts ih =>
    have ht : t < now - window := h t (by simp)
    simp only [pruneOld, ht, if_true]
    exact ih (fun x hx => h x (by simp [hx]))

theorem alistGet_eq_none {α : Type} (m : List (String × α)) (k : String)
    (h : k ∉ m.map Prod.fst) : alistGet m k = none := by
  induction m with
  | nil => rfl
  | cons hd t ih =>
    obtain ⟨k₀, v₀⟩ := hd
    simp only [List.map_cons, List.mem_cons] at h
    push_neg at h
    simp only [alistGet]
    rw [if_neg (fun he => h.1 he.symm)]
    exact ih h.2

theorem mem_keys_cleanupAttempts (w now : Nat) (m : List (String × List Nat))
    (k : String) (h : k ∈ (cleanupAttempts w now m).map Prod.fst) :
    k ∈ m.map Prod.fst := by
  induction m with
  | nil => simp [cleanupAttempts] at h
  | cons hd t ih =>
    obtain ⟨k₀, l₀⟩ := hd
    simp only [cleanupAttempts] at h
    by_cases he : (pruneOld w now l₀).isEmpty
    · rw [if_pos he] at h
      simp only [List.map_cons, List.mem_cons]
      exact Or.inr (ih h)
    · rw [if_neg he] at h
      simp only [List.map_cons, List.mem_cons] at h ⊢
      rcases h with h | h
      · exact Or.inl h
      · exact Or.inr (ih h)

theorem alistGet_cleanupAttempts_none (w now : Nat) (m : List (String × List Nat))
    (ip : String) (hnd : (m.map Prod.fst).Nodup)
    (h : pruneOld w now ((alistGet m ip).getD []) = []) :
    alistGet (cleanupAttempts w now m) ip = none := by
  induction m with
  | nil => rfl
  | cons hd t ih =>
    obtain ⟨k₀, l₀⟩ := hd
    simp only [List.map_cons, List.nodup_cons] at hnd
    by_cases hk : k₀ = ip
    · subst hk
      simp [alistGet] at h
      have hstep : cleanupAttempts w now ((k₀, l₀) :: t) = cleanupAttempts w now t := by
        simp [cleanupAttempts, h]
      rw [hstep]
      apply alistGet_eq_none
      intro hmem
      exact hnd.1 (mem_keys_cleanupAttempts w now t k₀ hmem)
    · simp only [alistGet, if_neg hk] at h
      simp only [cleanupAttempts]
      by_cases he : (pruneOld w now l₀).isEmpty
      · rw [if_pos he]
        exact ih hnd.2 h
      · rw [if_neg he]
        simp only [alistGet, if_neg hk]
        exact ih hnd.2 h

/-- C1: for every IP with zero recorded history (no failure-log entry and not
flagged) under the default configuration (`max_failed_attempts = 5`,
`failed_attempt_window = 300`), five `record_failed_login` calls in quick
succession (non-decreasing timestamps spanning at most the window) return
`false, false, false, false, true`, and `is_ip_suspicious` is `false`
before the sequence and `true` after it. -/
theorem C1_threshold_trip (s : SecurityMonitor) (ip : String)
    (hmax : s.max_failed_attempts = 5) (hwin : s.failed_attempt_window = 300)
    (hlog : getAttempts s ip = []) (hsusp : is_ip_suspicious s ip = false)
    (t1 t2 t3 t4 t5 : Nat)
    (h12 : t1 ≤ t2) (h23 : t2 ≤ t3) (h34 : t3 ≤ t4) (h45 : t4 ≤ t5)
    (hw : t5 ≤ t1 + 300) :
    is_ip_suspicious s ip = false ∧
    (recordFailures s ip [t1, t2, t3, t4, t5]).1 =
      [false, false, false, false, true] ∧
    is_ip_suspicious (recordFailures s ip [t1, t2, t3, t4, t5]).2 ip = true := by
  have hok : ∀ t ∈ ([] : List Nat) ++ [t1, t2, t3, t4, t5],
      ∀ u ∈ [t1, t2, t3, t4, t5], u ≤ s.failed_attempt_window + t := by
    intro t ht u hu
    rw [hwin]
    simp only [List.nil_append, List.mem_cons, List.not_mem_nil, or_false] at ht hu
    rcases ht with rfl | rfl | rfl | rfl | rfl <;>
      rcases hu with rfl | rfl | rfl | rfl | rfl <;> omega
  obtain ⟨h1, _, _, _, h5⟩ :=
    recordFailures_spec ip [t1, t2, t3, t4, t5] s [] hlog hok
  refine ⟨hsusp, ?_, ?_⟩
  · rw [h1, hmax]
    rfl
  · rw [h5]
    refine Or.inr ⟨by simp, ?_⟩
    rw [hmax]
    simp

theorem C1_threshold_trip_witness :
    is_ip_suspicious initMonitor "10.0.0.1" = false ∧
    (recordFailures initMonitor "10.0.0.1" [100, 110, 120, 130, 140]).1 =
      [false, false, false, false, true] ∧
    is_ip_suspicious (recordFailures initMonitor "10.0.0.1"
      [100, 110, 120, 130, 140]).2 "10.0.0.1" = true :=
  C1_threshold_trip initMonitor "10.0.0.1" rfl rfl rfl rfl 100 110 120 130 140
    (by decide) (by decide) (by decide) (by decide) (by decide)

/-- C2 counterexample: trip the threshold for one IP at time 0, let every
timestamp expire (`now = 1000`, window 300), call `cleanup_old_data` — the
IP's log is gone, yet `is_ip_suspicious` still returns `true`, not `false`
as the claim states: `cleanup_old_data` never touches the suspicious set. -/
theorem C2_window_expiry_counterexample :
    (getAttempts (recordFailures initMonitor "10.0.0.1" [0, 0, 0, 0, 0]).2
        "10.0.0.1").all
      (fun t => decide (t < 1000 - initMonitor.failed_attempt_window)) = true ∧
    is_ip_suspicious (recordFailures initMonitor "10.0.0.1" [0, 0, 0, 0, 0]).2
      "10.0.0.1" = true ∧
    is_ip_suspicious
      (cleanup_old_data (recordFailures initMonitor "10.0.0.1" [0, 0, 0, 0, 0]).2 1000)
      "10.0.0.1" = true := by
  decide

/-- C2 amended: for a tripped IP whose timestamps are all older than the
window (in a state with duplicate-free failure-log keys, as every reachable
state has), one `cleanup_old_data` call removes the IP's failure log, so a
fresh five-call `record_failed_login` sequence again returns
`false, false, false, false, true`; but `is_ip_suspicious` remains `true`
after the cleanup — only `record_successful_login` clears the flag. -/
theorem C2_window_expiry_amended (s : SecurityMonitor) (ip : String) (now : Nat)
    (hnd : (s.failed_attempts.map Prod.fst).Nodup)
    (hsusp : is_ip_suspicious s ip = true)
    (hexp : ∀ t ∈ getAttempts s ip, t < now - s.failed_attempt_window)
    (hmax : s.max_failed_attempts = 5) (hwin : s.failed_attempt_window = 300)
    (t1 t2 t3 t4 t5 : Nat)
    (h12 : t1 ≤ t2) (h23 : t2 ≤ t3) (h34 : t3 ≤ t4) (h45 : t4 ≤ t5)
    (hw : t5 ≤ t1 + 300) :
    is_ip_suspicious (cleanup_old_data s now) ip = true ∧
    getAttempts (cleanup_old_data s now) ip = [] ∧
    (recordFailures (cleanup_old_data s now) ip [t1, t2, t3, t4, t5]).1 =
      [false, false, false, false, true] := by
  have hclean : getAttempts (cleanup_old_data s now) ip = [] := by
    unfold cleanup_old_data getAttempts
    simp only
    rw [alistGet_cleanupAttempts_none s.failed_attempt_window now s.failed_attempts ip hnd
      (pruneOld_eq_nil _ _ _ hexp)]
    rfl
  refine ⟨hsusp, hclean, ?_⟩
  have hok : ∀ t ∈ ([] : List Nat) ++ [t1, t2, t3, t4, t5],
      ∀ u ∈ [t1, t2, t3, t4, t5],
      u ≤ (cleanup_old_data s now).failed_attempt_window + t := by
    intro t ht u hu
    show u ≤ s.failed_attempt_window + t
    rw [hwin]
    simp only [List.nil_append, List.mem_cons, List.not_mem_nil, or_false] at ht hu
    rcases ht with rfl | rfl | rfl | rfl | rfl <;>
      rcases hu with rfl | rfl | rfl | rfl | rfl <;> omega
  obtain ⟨h1, _, _, _, _⟩ :=
    recordFailures_spec ip [t1, t2, t3, t4, t5] (cleanup_old_data s now) [] hclean hok
  rw [h1]
  show tripResults s.max_failed_attempts _ _ = _
  rw [hmax]
  rfl

theorem C2_window_expiry_amended_witness :
    is_ip_suspicious
      (cleanup_old_data (recordFailures initMonitor "10.0.0.1" [0, 0, 0, 0, 0]).2 1000)
      "10.0.0.1" = true ∧
    getAttempts
      (cleanup_old_data (recordFailures initMonitor "10.0.0.1" [0, 0, 0, 0, 0]).2 1000)
      "10.0.0.1" = [] ∧
    (recordFailures
      (cleanup_old_data (recordFailures initMonitor "10.0.0.1" [0, 0, 0, 0, 0]).2 1000)
      "10.0.0.1" [1000, 1001, 1002, 1003, 1004]).1 =
      [false, false, false, false, true] :=
  C2_window_expiry_amended
    (recordFailures initMonitor "10.0.0.1" [0, 0, 0, 0, 0]).2 "10.0.0.1" 1000
    (by decide) (by decide) (by decide) (by decide) (by decide)
    1000 1001 1002 1003 1004
    (by decide) (by decide) (by decide) (by decide) (by decide)

end TravelPacker

namespace TravelPacker

theorem contains_eq_decide_mem (l : List String) (x : String) :
    l.contains x = decide (x ∈ l) := by
  simp

/-- C3: the suspicious set only ever shrinks through
`record_successful_login` for the same IP.  `record_failed_login` preserves
every flagged IP, `record_request`, `check_anomaly` and `cleanup_old_data`
leave the suspicious set untouched (and `get_stats` is a pure read), while
one `record_successful_login(ip)` always unflags `ip` — no matter how many
failures preceded — and changes no other IP's flag. -/
theorem C3_pardon_only_removal (s : SecurityMonitor) (ip other endpoint : String)
    (now : Nat) :
    (is_ip_suspicious s other = true →
      is_ip_suspicious (record_failed_login s ip now).2 other = true) ∧
    (record_request s ip endpoint).suspicious_ips = s.suspicious_ips ∧
    (check_anomaly s ip endpoint).2.suspicious_ips = s.suspicious_ips ∧
    (cleanup_old_data s now).suspicious_ips = s.suspicious_ips ∧
    is_ip_suspicious (record_successful_login s ip) ip = false ∧
    (other ≠ ip →
      is_ip_suspicious (record_successful_login s ip) other = is_ip_suspicious s other) := by
  refine ⟨?_, rfl, rfl, rfl, ?_, ?_⟩
  · intro h
    rw [record_failed_login_eq]
    unfold is_ip_suspicious at h ⊢
    simp only at h ⊢
    split
    · simp only [contains_eq_decide_mem, decide_eq_true_iff] at h ⊢
      rw [mem_insertSet]
      exact Or.inl h
    · exact h
  · unfold record_successful_login is_ip_suspicious
    simp
  · intro h
    unfold record_successful_login is_ip_suspicious
    simp only [contains_eq_decide_mem, List.mem_filter, decide_eq_true_iff]
    simp [h]

theorem C3_pardon_only_removal_witness :
    is_ip_suspicious
      (record_failed_login (recordFailures initMonitor "10.0.0.1" [0, 0, 0, 0, 0]).2
        "10.0.0.2" 0).2 "10.0.0.1" = true ∧
    is_ip_suspicious
      (record_successful_login (recordFailures initMonitor "10.0.0.1" [0, 0, 0, 0, 0]).2
        "10.0.0.1") "10.0.0.1" = false ∧
    is_ip_suspicious
      (record_successful_login (recordFailures initMonitor "10.0.0.1" [0, 0, 0, 0, 0]).2
        "10.0.0.2") "10.0.0.1" =
      is_ip_suspicious (recordFailures initMonitor "10.0.0.1" [0, 0, 0, 0, 0]).2 "10.0.0.1" :=
  ⟨(C3_pardon_only_removal (recordFailures initMonitor "10.0.0.1" [0, 0, 0, 0, 0]).2
      "10.0.0.2" "10.0.0.1" "home" 0).1 (by decide),
   (C3_pardon_only_removal (recordFailures initMonitor "10.0.0.1" [0, 0, 0, 0, 0]).2
      "10.0.0.1" "10.0.0.1" "home" 0).2.2.2.2.1,
   (C3_pardon_only_removal (recordFailures initMonitor "10.0.0.1" [0, 0, 0, 0, 0]).2
      "10.0.0.2" "10.0.0.1" "home" 0).2.2.2.2.2 (by decide)⟩

/-- C4: for a flagged IP with a non-empty failure log, one
`record_successful_login` unflags it, empties its log, and (whenever
`max_failed_attempts ≥ 2`) makes an immediately following
`record_failed_login` return `false`; for an IP with no history at all
(no log entry and no flag) `record_successful_login` is a no-op. -/
theorem C4_pardon (s : SecurityMonitor) (ip : String) :
    (is_ip_suspicious s ip = true → getAttempts s ip ≠ [] →
      2 ≤ s.max_failed_attempts →
      is_ip_suspicious (record_successful_login s ip) ip = false ∧
      getAttempts (record_successful_login s ip) ip = [] ∧
      ∀ now, (record_failed_login (record_successful_login s ip) ip now).1 = false) ∧
    (alistGet s.failed_attempts ip = none → ip ∉ s.suspicious_ips →
      record_successful_login s ip = s) := by
  constructor
  · intro _ hlog hmax
    have hkey : containsKey s.failed_attempts ip = true := by
      unfold containsKey
      cases hget : alistGet s.failed_attempts ip with
      | none =>
        exfalso
        apply hlog
        unfold getAttempts
        rw [hget]
        rfl
      | some l => rfl
    have hfa : (record_successful_login s ip).failed_attempts =
        alistSet s.failed_attempts ip [] := by
      unfold record_successful_login
      simp only [hkey, if_true]
    have hempty : getAttempts (record_successful_login s ip) ip = [] := by
      unfold getAttempts
      rw [hfa, alistGet_set_self]
      rfl
    refine ⟨?_, hempty, ?_⟩
    · unfold record_successful_login is_ip_suspicious
      simp
    · intro now
      rw [record_failed_login_eq]
      simp only [hempty]
      have hm : (record_successful_login s ip).max_failed_attempts =
          s.max_failed_attempts := rfl
      rw [hm]
      simp only [pruneOld, List.length_nil, decide_eq_false_iff_not]
      omega
  · intro hget hmem
    unfold record_successful_login
    have h1 : containsKey s.failed_attempts ip = false := by
      unfold containsKey
      rw [hget]
      rfl
    have h2 : s.suspicious_ips.filter (fun y => y ≠ ip) = s.suspicious_ips := by
      apply List.filter_eq_self.mpr
      intro a ha
      simp only [decide_eq_true_iff]
      intro he
      exact hmem (he ▸ ha)
    rw [h1]
    simp only [Bool.false_eq_true, if_false, h2]

theorem C4_pardon_witness :
    (is_ip_suspicious
        (record_successful_login (recordFailures initMonitor "10.0.0.1" [0, 0, 0, 0, 0]).2
          "10.0.0.1") "10.0.0.1" = false ∧
      getAttempts
        (record_successful_login (recordFailures initMonitor "10.0.0.1" [0, 0, 0, 0, 0]).2
          "10.0.0.1") "10.0.0.1" = [] ∧
      ∀ now,
        (record_failed_login
          (record_successful_login (recordFailures initMonitor "10.0.0.1" [0, 0, 0, 0, 0]).2
            "10.0.0.1") "10.0.0.1" now).1 = false) ∧
    record_successful_login initMonitor "10.0.0.9" = initMonitor :=
  ⟨(C4_pardon (recordFailures initMonitor "10.0.0.1" [0, 0, 0, 0, 0]).2 "10.0.0.1").1
      (by decide) (by decide) (by decide),
   (C4_pardon initMonitor "10.0.0.9").2 (by decide) (by decide)⟩

end TravelPacker

namespace TravelPacker

theorem check_anomaly_fst (s : SecurityMonitor) (ip endpoint : String) :
    (check_anomaly s ip endpoint).1 =
      decide (s.anomaly_threshold < getCount s ip endpoint) := rfl

theorem getCount_record_request_self (s : SecurityMonitor) (ip endpoint : String) :
    getCount (record_request s ip endpoint) ip endpoint =
      getCount s ip endpoint + 1 := by
  unfold record_request getCount getPattern
  simp only [alistGet_set_self, Option.getD_some]

theorem record_request_threshold (s : SecurityMonitor) (ip endpoint : String) :
    (record_request s ip endpoint).anomaly_threshold = s.anomaly_threshold := rfl

theorem getCount_recordRequests (s : SecurityMonitor) (ip endpoint : String) (n : Nat) :
    getCount (recordRequests s ip endpoint n) ip endpoint =
      getCount s ip endpoint + n := by
  induction n with
  | zero => rfl
  | succ n ih =>
    show getCount (record_request (recordRequests s ip endpoint n) ip endpoint) ip endpoint = _
    rw [getCount_record_request_self, ih]
    omega

theorem recordRequests_threshold (s : SecurityMonitor) (ip endpoint : String) (n : Nat) :
    (recordRequests s ip endpoint n).anomaly_threshold = s.anomaly_threshold := by
  induction n with
  | zero => rfl
  | succ n ih =>
    show (record_request (recordRequests s ip endpoint n) ip endpoint).anomaly_threshold = _
    rw [record_request_threshold, ih]

/-- C5: `check_anomaly(ip, endpoint)` returns `true` iff the (ip, endpoint)
counter strictly exceeds `anomaly_threshold`; starting from a zero counter,
after exactly `anomaly_threshold` calls to `record_request` the check is
still `false`, and after one more it is `true`. -/
theorem C5_anomaly_threshold (s : SecurityMonitor) (ip endpoint : String) :
    ((check_anomaly s ip endpoint).1 = true ↔
      s.anomaly_threshold < getCount s ip endpoint) ∧
    (getCount s ip endpoint = 0 →
      (check_anomaly (recordRequests s ip endpoint s.anomaly_threshold)
        ip endpoint).1 = false ∧
      (check_anomaly (recordRequests s ip endpoint (s.anomaly_threshold + 1))
        ip endpoint).1 = true) := by
  constructor
  · rw [check_anomaly_fst]
    exact decide_eq_true_iff
  · intro h0
    constructor
    · rw [check_anomaly_fst, getCount_recordRequests, recordRequests_threshold, h0]
      simp
    · rw [check_anomaly_fst, getCount_recordRequests, recordRequests_threshold, h0]
      simp

theorem C5_anomaly_threshold_witness :
    ((check_anomaly initMonitor "10.0.0.1" "home").1 = true ↔
      initMonitor.anomaly_threshold < getCount initMonitor "10.0.0.1" "home") ∧
    ((check_anomaly (recordRequests initMonitor "10.0.0.1" "home"
        initMonitor.anomaly_threshold) "10.0.0.1" "home").1 = false ∧
      (check_anomaly (recordRequests initMonitor "10.0.0.1" "home"
        (initMonitor.anomaly_threshold + 1)) "10.0.0.1" "home").1 = true) :=
  ⟨(C5_anomaly_threshold initMonitor "10.0.0.1" "home").1,
   (C5_anomaly_threshold initMonitor "10.0.0.1" "home").2 (by decide)⟩

/-- C6: `cleanup_old_data` unconditionally empties the whole request-pattern
table, so a `check_anomaly` immediately after it returns `false` for every
(ip, endpoint) pair, whatever the counters were before. -/
theorem C6_tumbling_reset (s : SecurityMonitor) (now : Nat) (ip endpoint : String) :
    (cleanup_old_data s now).request_patterns = [] ∧
    (check_anomaly (cleanup_old_data s now) ip endpoint).1 = false := by
  refine ⟨rfl, ?_⟩
  rw [check_anomaly_fst]
  simp [getCount, getPattern, cleanup_old_data, alistGet]

/-- C7 counterexample: on a fresh monitor, one `check_anomaly` call on a
never-seen (ip, endpoint) pair changes what `get_stats` reports — the
`defaultdict` read `self._request_patterns[ip][endpoint]` inserts an empty
outer entry and a zero inner counter, raising `total_patterns` from 0 to 1. -/
theorem C7_stats_counterexample :
    get_stats (check_anomaly initMonitor "10.0.0.1" "home").2 ≠
      get_stats initMonitor := by
  decide

/-- C7 amended: `check_anomaly` never touches the failure log or the
suspicious set and never alters the value of any counter; when the
(ip, endpoint) entry already exists it leaves the whole state — hence
`get_stats` — unchanged, but on a never-seen pair the `defaultdict` access
inserts a zero counter, which `get_stats` then counts in `total_patterns`. -/
theorem C7_check_anomaly_frame (s : SecurityMonitor) (ip endpoint : String) :
    (check_anomaly s ip endpoint).2.failed_attempts = s.failed_attempts ∧
    (check_anomaly s ip endpoint).2.suspicious_ips = s.suspicious_ips ∧
    (∀ ip2 ep2, getCount (check_anomaly s ip endpoint).2 ip2 ep2 = getCount s ip2 ep2) ∧
    (containsKey (getPattern s ip) endpoint = true →
      (check_anomaly s ip endpoint).2 = s ∧
      get_stats (check_anomaly s ip endpoint).2 = get_stats s) := by
  refine ⟨rfl, rfl, ?_, ?_⟩
  · intro ip2 ep2
    show getCount { s with request_patterns := (alistSet s.request_patterns ip (alistSet (getPattern s ip) endpoint (getCount s ip endpoint))) } ip2 ep2 = _
    by_cases hip : ip2 = ip
    · subst hip
      unfold getCount getPattern
      simp only [alistGet_set_self, Option.getD_some]
      by_cases hep : ep2 = endpoint
      · subst hep
        rw [alistGet_set_self]
        rfl
      · rw [alistGet_set_ne _ _ _ _ hep]
    · unfold getCount getPattern
      simp only
      rw [alistGet_set_ne _ _ _ _ hip]
  · intro hkey
    have hsame : (check_anomaly s ip endpoint).2 = s := by
      show { s with request_patterns := (alistSet s.request_patterns ip (alistSet (getPattern s ip) endpoint (getCount s ip endpoint))) } = s
      have houter : alistGet s.request_patterns ip = some (getPattern s ip) := by
        unfold getPattern
        cases h : alistGet s.request_patterns ip with
        | none =>
          exfalso
          unfold containsKey getPattern at hkey
          rw [h] at hkey
          simp [alistGet] at hkey
        | some inner => simp [h]
      have hinner : alistGet (getPattern s ip) endpoint =
          some (getCount s ip endpoint) := by
        unfold containsKey at hkey
        unfold getCount
        cases h : alistGet (getPattern s ip) endpoint with
        | none => rw [h] at hkey; simp at hkey
        | some c => simp [h]
      rw [alistSet_eq_self _ _ _ hinner, alistSet_eq_self _ _ _ houter]
    exact ⟨hsame, by rw [hsame]⟩

theorem C7_check_anomaly_frame_witness :
    (check_anomaly (record_request initMonitor "10.0.0.1" "home") "10.0.0.1" "home").2 =
        record_request initMonitor "10.0.0.1" "home" ∧
    get_stats (check_anomaly (record_request initMonitor "10.0.0.1" "home")
        "10.0.0.1" "home").2 =
      get_stats (record_request initMonitor "10.0.0.1" "home") :=
  (C7_check_anomaly_frame (record_request initMonitor "10.0.0.1" "home")
    "10.0.0.1" "home").2.2.2 (by decide)

end TravelPacker

namespace TravelPacker

theorem applyLoginOp_frame (s : SecurityMonitor) (a b : String) (op : LoginOp)
    (hne : a ≠ b) :
    is_ip_suspicious (applyLoginOp s a op) b = is_ip_suspicious s b ∧
    getAttempts (applyLoginOp s a op) b = getAttempts s b := by
  cases op with
  | failed now =>
    constructor
    · show is_ip_suspicious (record_failed_login s a now).2 b = _
      rw [record_failed_login_eq]
      unfold is_ip_suspicious
      simp only
      split
      · rw [contains_eq_decide_mem, contains_eq_decide_mem, decide_eq_decide]
        rw [mem_insertSet]
        simp [Ne.symm hne]
      · rfl
    · show getAttempts (record_failed_login s a now).2 b = _
      rw [record_failed_login_eq]
      unfold getAttempts
      simp only
      rw [alistGet_set_ne _ _ _ _ (Ne.symm hne)]
  | succeeded =>
    constructor
    · show is_ip_suspicious (record_successful_login s a) b = _
      unfold record_successful_login is_ip_suspicious
      rw [contains_eq_decide_mem, contains_eq_decide_mem, decide_eq_decide]
      rw [List.mem_filter]
      simp [Ne.symm hne]
    · show getAttempts (record_successful_login s a) b = _
      unfold record_successful_login getAttempts
      simp only
      split
      · rw [alistGet_set_ne _ _ _ _ (Ne.symm hne)]
      · rfl

/-- C8: for distinct IPs `a ≠ b`, any sequence of `record_failed_login(a)`
and `record_successful_login(a)` calls leaves `is_ip_suspicious(b)` and b's
failure log exactly as they were. -/
theorem C8_independence (s : SecurityMonitor) (a b : String) (ops : List LoginOp)
    (hne : a ≠ b) :
    is_ip_suspicious (applyLoginOps s a ops) b = is_ip_suspicious s b ∧
    getAttempts (applyLoginOps s a ops) b = getAttempts s b := by
  induction ops generalizing s with
  | nil => exact ⟨rfl, rfl⟩
  | cons op ops ih =>
    obtain ⟨h1, h2⟩ := ih (applyLoginOp s a op)
    obtain ⟨g1, g2⟩ := applyLoginOp_frame s a b op hne
    exact ⟨h1.trans g1, h2.trans g2⟩

theorem C8_independence_witness :
    is_ip_suspicious
      (applyLoginOps (recordFailures initMonitor "10.0.0.2" [0, 0, 0, 0, 0]).2 "10.0.0.1"
        [LoginOp.failed 1, LoginOp.failed 2, LoginOp.succeeded, LoginOp.failed 3])
      "10.0.0.2" =
      is_ip_suspicious (recordFailures initMonitor "10.0.0.2" [0, 0, 0, 0, 0]).2
        "10.0.0.2" ∧
    getAttempts
      (applyLoginOps (recordFailures initMonitor "10.0.0.2" [0, 0, 0, 0, 0]).2 "10.0.0.1"
        [LoginOp.failed 1, LoginOp.failed 2, LoginOp.succeeded, LoginOp.failed 3])
      "10.0.0.2" =
      getAttempts (recordFailures initMonitor "10.0.0.2" [0, 0, 0, 0, 0]).2 "10.0.0.2" :=
  C8_independence (recordFailures initMonitor "10.0.0.2" [0, 0, 0, 0, 0]).2
    "10.0.0.1" "10.0.0.2"
    [LoginOp.failed 1, LoginOp.failed 2, LoginOp.succeeded, LoginOp.failed 3]
    (by decide)

theorem cleanupAttempts_length_le (w now : Nat) (m : List (String × List Nat)) :
    (cleanupAttempts w now m).length ≤ m.length := by
  induction m with
  | nil => simp [cleanupAttempts]
  | cons hd t ih =>
    obtain ⟨k, l⟩ := hd
    simp only [cleanupAttempts]
    split
    · exact Nat.le_trans ih (Nat.le_succ _)
    · simpa using ih

theorem cleanupAttempts_length_lt (w now : Nat) (m : List (String × List Nat))
    (p : String × List Nat) (hp : p ∈ m) (hempty : pruneOld w now p.2 = []) :
    (cleanupAttempts w now m).length < m.length := by
  induction m with
  | nil => simp at hp
  | cons hd t ih =>
    obtain ⟨k, l⟩ := hd
    rcases List.mem_cons.mp hp with rfl | hmem
    · simp only [cleanupAttempts, hempty, List.isEmpty_nil, if_pos, List.length_cons]
      exact Nat.lt_succ_of_le (cleanupAttempts_length_le w now t)
    · simp only [cleanupAttempts]
      split
      · exact Nat.lt_succ_of_le (cleanupAttempts_length_le w now t)
      · simpa using ih hmem

/-- C9: `record_successful_login` on an IP with a non-empty failure log
empties the log but leaves the key in the failure-attempt table, so
`get_stats` still counts the pardoned IP among `monitored_ips`; the next
`cleanup_old_data` deletes the now-empty entry, after which (given
duplicate-free keys, as in every reachable state) the key is gone and the
`monitored_ips` count strictly decreases. -/
theorem C9_pardon_keeps_key (s : SecurityMonitor) (ip : String) (now : Nat)
    (hnd : (s.failed_attempts.map Prod.fst).Nodup)
    (hlog : getAttempts s ip ≠ []) :
    getAttempts (record_successful_login s ip) ip = [] ∧
    containsKey (record_successful_login s ip).failed_attempts ip = true ∧
    (get_stats (record_successful_login s ip)).monitored_ips =
      (get_stats s).monitored_ips ∧
    containsKey (cleanup_old_data (record_successful_login s ip) now).failed_attempts
      ip = false ∧
    (get_stats (cleanup_old_data (record_successful_login s ip) now)).monitored_ips <
      (get_stats (record_successful_login s ip)).monitored_ips := by
  have hkey : containsKey s.failed_attempts ip = true := by
    unfold containsKey
    cases hget : alistGet s.failed_attempts ip with
    | none =>
      exfalso
      apply hlog
      unfold getAttempts
      rw [hget]
      rfl
    | some l => rfl
  have hfa : (record_successful_login s ip).failed_attempts =
      alistSet s.failed_attempts ip [] := by
    unfold record_successful_login
    simp only [hkey, if_true]
  have hnd2 : ((record_successful_login s ip).failed_attempts.map Prod.fst).Nodup := by
    rw [hfa]
    have hkeys : ∀ (m : List (String × List Nat)) (k : String) (v : List Nat),
        containsKey m k = true → (alistSet m k v).map Prod.fst = m.map Prod.fst := by
      intro m k v hc
      induction m with
      | nil => simp [containsKey, alistGet] at hc
      | cons hd t ih2 =>
        obtain ⟨k₀, v₀⟩ := hd
        by_cases hk : k₀ = k
        · subst hk
          simp [alistSet]
        · simp only [containsKey, alistGet, if_neg hk] at hc
          simp [alistSet, hk, ih2 hc]
    rw [hkeys s.failed_attempts ip [] hkey]
    exact hnd
  refine ⟨?_, ?_, ?_, ?_, ?_⟩
  · unfold getAttempts
    rw [hfa, alistGet_set_self]
    rfl
  · unfold containsKey
    rw [hfa, alistGet_set_self]
    rfl
  · unfold get_stats
    simp only
    rw [hfa, alistSet_length_of_containsKey _ _ _ hkey]
  · unfold cleanup_old_data containsKey
    simp only
    rw [alistGet_cleanupAttempts_none _ _ _ _ hnd2]
    · rfl
    · have : getAttempts (record_successful_login s ip) ip = [] := by
        unfold getAttempts
        rw [hfa, alistGet_set_self]
        rfl
      unfold getAttempts at this
      rw [this]
      rfl
  · unfold get_stats cleanup_old_data
    simp only
    apply cleanupAttempts_length_lt _ _ _ (ip, [])
    · rw [hfa]
      exact mem_alistSet_self _ _ _
    · rfl

theorem C9_pardon_keeps_key_witness :
    getAttempts
      (record_successful_login (recordFailures initMonitor "10.0.0.1" [0, 0, 0]).2
        "10.0.0.1") "10.0.0.1" = [] ∧
    containsKey
      (record_successful_login (recordFailures initMonitor "10.0.0.1" [0, 0, 0]).2
        "10.0.0.1").failed_attempts "10.0.0.1" = true ∧
    (get_stats
      (record_successful_login (recordFailures initMonitor "10.0.0.1" [0, 0, 0]).2
        "10.0.0.1")).monitored_ips =
      (get_stats (recordFailures initMonitor "10.0.0.1" [0, 0, 0]).2).monitored_ips ∧
    containsKey
      (cleanup_old_data
        (record_successful_login (recordFailures initMonitor "10.0.0.1" [0, 0, 0]).2
          "10.0.0.1") 5).failed_attempts "10.0.0.1" = false ∧
    (get_stats
      (cleanup_old_data
        (record_successful_login (recordFailures initMonitor "10.0.0.1" [0, 0, 0]).2
          "10.0.0.1") 5)).monitored_ips <
      (get_stats
        (record_successful_login (recordFailures initMonitor "10.0.0.1" [0, 0, 0]).2
          "10.0.0.1")).monitored_ips :=
  C9_pardon_keeps_key (recordFailures initMonitor "10.0.0.1" [0, 0, 0]).2 "10.0.0.1" 5
    (by decide) (by decide)

end TravelPacker
